import Mathlib

/-!
Shallow embedding of the camera-control core of the JayDamania portfolio
repository: the viewpoint registry and procedural keyframe updates
(src/Application/Camera/CameraKeyframes.ts), the responsive mobile
configuration helpers (src/Application/Camera/MobileConfig.ts), and the
camera state machine (src/Application/Camera/Camera.ts) with its
transition engine, pointer-input classification and per-frame tick.

Conventions of the embedding:
- JavaScript numbers are modelled as rationals; where IEEE special values
  (Infinity, NaN) matter to a property, a dedicated JSNum type with
  explicit division-by-zero semantics is used.
- Math.sin is an ambient deterministic host function; it is threaded as an
  explicit parameter so that statements quantify over it.
- The TWEEN library is modelled by an explicit list of active tweens on
  the camera state; TWEEN.removeAll clears the list, and running the
  interpolation engine to completion folds every active tween: each sets
  its animated vector to the tween end value and fires its onComplete.
- DOM event targets are modelled by the fields the code inspects.
-/

namespace Portfolio

/-- Three-component vector over the rationals, modelling THREE.Vector3. -/
structure Vec3 where
  x : ℚ
  y : ℚ
  z : ℚ
deriving DecidableEq, Repr

/-- Test whether the list n is an initial segment of the list h
(character-level helper for JavaScript String.prototype.includes). -/
def charsStartWith : List Char → List Char → Bool
  | [], _ => true
  | _ :: _, [] => false
  | a :: as, b :: bs => a = b && charsStartWith as bs

/-- Test whether n occurs as a contiguous sublist of h. -/
def charsContain (n : List Char) : List Char → Bool
  | [] => charsStartWith n []
  | c :: cs => charsStartWith n (c :: cs) || charsContain n cs

/-- JavaScript String.prototype.includes: sub occurs in hay. -/
def strIncludes (hay sub : String) : Bool :=
  charsContain sub.toList hay.toList

/-- JavaScript String.prototype.toLowerCase, modelled character-wise. -/
def strToLower (s : String) : String :=
  ⟨s.data.map Char.toLower⟩

/-- Viewport dimensions, modelling the Sizes utility (width/height in
device pixels). -/
structure Sizes where
  width : ℚ
  height : ℚ
deriving DecidableEq, Repr

/-! MobileConfig.ts -/

/-- Screen width below this is considered Mobile (MobileConfig.ts). -/
def MOBILE_BREAKPOINT : ℚ := 768

/-- List of 3D object names that trigger Zoom In when touched
(MobileConfig.ts TOUCH_TARGETS). -/
def TOUCH_TARGETS : List String :=
  ["computer", "monitor", "screen", "display", "pc", "glass",
   "bezel", "stand", "hitbox", "computer-screen-hitbox"]

/-- Returns true if the device is mobile (MobileConfig.ts isMobile). -/
def isMobile (sizes : Sizes) : Bool :=
  sizes.width < MOBILE_BREAKPOINT

/-- Calculates the Z position needed to fit the monitor inside a vertical
mobile screen (MobileConfig.ts getMobileMonitorPosition). -/
def getMobileMonitorPosition (sizes : Sizes) : Vec3 :=
  let aspect := sizes.width / sizes.height
  let distanceZ := 3200 + (1 / aspect) * 200
  ⟨0, 950, distanceZ⟩

/-- Checks if a clicked object name matches the list of Touch Targets
(MobileConfig.ts isClickableComputerPart). -/
def isClickableComputerPart (objectName : String) : Bool :=
  let lowerName := strToLower objectName
  TOUCH_TARGETS.any (fun target => strIncludes lowerName target)

/-! CameraKeyframes.ts -/

/-- Closed set of viewpoint identifiers (Camera.ts CameraKey enum). -/
inductive CameraKey where
  | idle
  | monitor
  | loading
  | desk
  | orbitControlsStart
deriving DecidableEq, Repr

/-- Authored position/focal-point pair (CameraKeyframes.ts CameraKeyframe). -/
structure Pose where
  position : Vec3
  focalPoint : Vec3
deriving DecidableEq, Repr

/-- Authored base coordinates (CameraKeyframes.ts keys registry). -/
def keys : CameraKey → Pose
  | .idle => ⟨⟨-20000, 12000, 20000⟩, ⟨0, -1000, 0⟩⟩
  | .monitor => ⟨⟨0, 950, 1300⟩, ⟨0, 950, 0⟩⟩
  | .desk => ⟨⟨0, 1600, 3200⟩, ⟨0, 750, 0⟩⟩
  | .loading => ⟨⟨-35000, 35000, 35000⟩, ⟨0, -5000, 0⟩⟩
  | .orbitControlsStart => ⟨⟨-15000, 10000, 15000⟩, ⟨-100, 350, 0⟩⟩

/-- Live state of the monitor keyframe (CameraKeyframes.ts MonitorKeyframe):
its live pose, its construction-time origin and its working target. -/
structure MonitorKF where
  position : Vec3
  focalPoint : Vec3
  origin : Vec3
  targetPos : Vec3
deriving DecidableEq, Repr

/-- Live state of the desk keyframe (CameraKeyframes.ts DeskKeyframe). -/
structure DeskKF where
  position : Vec3
  focalPoint : Vec3
  origin : Vec3
  targetFoc : Vec3
  targetPos : Vec3
deriving DecidableEq, Repr

/-- Live state of the idle keyframe (CameraKeyframes.ts IdleKeyframe). -/
structure IdleKF where
  position : Vec3
  focalPoint : Vec3
  origin : Vec3
deriving DecidableEq, Repr

/-- Live state of a keyframe whose update is a no-op (LoadingKeyframe,
OrbitControlsStart). -/
structure StaticKF where
  position : Vec3
  focalPoint : Vec3
deriving DecidableEq, Repr

/-- MonitorKeyframe.update: responsive reframing of the monitor viewpoint.
On narrow (mobile) viewports the camera depth grows with the inverse
aspect ratio; on wide viewports it is the fixed close-up depth. -/
def monitorUpdate (width height : ℚ) (st : MonitorKF) : MonitorKF :=
  let mobile := width < MOBILE_BREAKPOINT
  let aspect := width / height
  let tp :=
    if mobile then
      { st.targetPos with z := 3200 + (1 / aspect) * 200, y := 950 }
    else
      { st.targetPos with z := 1300, y := 950 }
  { st with targetPos := tp, position := tp }

/-- DeskKeyframe.update: static reframed pose on mobile, exponential
mouse-parallax smoothing with a floor clamp on desktop. -/
def deskUpdate (width height mouseX mouseY : ℚ) (st : DeskKF) : DeskKF :=
  let mobile := width < MOBILE_BREAKPOINT
  if mobile then
    let tp : Vec3 := ⟨0, 1800, 5200⟩
    let tf : Vec3 := { st.targetFoc with x := 0, y := 600 }
    { st with targetPos := tp, targetFoc := tf, focalPoint := tf, position := tp }
  else
    let tfx := st.targetFoc.x + (mouseX - width / 2 - st.targetFoc.x) * (5 / 100)
    let tfy := st.targetFoc.y + (-(mouseY - height) - st.targetFoc.y) * (5 / 100)
    let tpx := st.targetPos.x + (mouseX - width / 2 - st.targetPos.x) * (1 / 100)
    let tpy0 := st.targetPos.y + (-(mouseY - height * 2) - st.targetPos.y) * (1 / 100)
    let tpz := st.origin.z
    let tpy := if tpy0 < 1200 then 1200 else tpy0
    let tf : Vec3 := ⟨tfx, tfy, st.targetFoc.z⟩
    let tp : Vec3 := ⟨tpx, tpy, tpz⟩
    { st with targetFoc := tf, targetPos := tp, focalPoint := tf, position := tp }

/-- IdleKeyframe.update: subtle orbiting animation, two sinusoids of the
elapsed time; s is the ambient Math.sin of the host. -/
def idleUpdate (s : ℚ → ℚ) (elapsed : ℚ) (st : IdleKF) : IdleKF :=
  { st with
    position :=
      ⟨s ((elapsed + 19000) * (8 / 100000)) * st.origin.x,
       s ((elapsed + 1000) * (4 / 1000000)) * 4000 + st.origin.y - 3000,
       st.origin.z⟩ }

/-- Constructor state of the monitor keyframe. -/
def monitorInit : MonitorKF :=
  ⟨(keys .monitor).position, (keys .monitor).focalPoint,
   (keys .monitor).position, (keys .monitor).position⟩

/-- Constructor state of the desk keyframe. -/
def deskInit : DeskKF :=
  ⟨(keys .desk).position, (keys .desk).focalPoint,
   (keys .desk).position, (keys .desk).focalPoint, (keys .desk).position⟩

/-- Constructor state of the idle keyframe. -/
def idleInit : IdleKF :=
  ⟨(keys .idle).position, (keys .idle).focalPoint, (keys .idle).position⟩

/-- Live state of the whole keyframe registry owned by the camera. -/
structure KeyframesState where
  idle : IdleKF
  monitor : MonitorKF
  loading : StaticKF
  desk : DeskKF
  orbitControlsStart : StaticKF
deriving DecidableEq, Repr

/-- Constructor state of the keyframe registry. -/
def keyframesInit : KeyframesState :=
  ⟨idleInit, monitorInit,
   ⟨(keys .loading).position, (keys .loading).focalPoint⟩,
   deskInit,
   ⟨(keys .orbitControlsStart).position, (keys .orbitControlsStart).focalPoint⟩⟩

/-- Current live pose of the keyframe stored under a given key. -/
def KeyframesState.pose (k : KeyframesState) : CameraKey → Pose
  | .idle => ⟨k.idle.position, k.idle.focalPoint⟩
  | .monitor => ⟨k.monitor.position, k.monitor.focalPoint⟩
  | .loading => ⟨k.loading.position, k.loading.focalPoint⟩
  | .desk => ⟨k.desk.position, k.desk.focalPoint⟩
  | .orbitControlsStart =>
      ⟨k.orbitControlsStart.position, k.orbitControlsStart.focalPoint⟩

/-! Camera.ts: state machine, transition engine and input handling -/

/-- Named easing curves used by the camera (quintic in/out default, the
custom cubic bezier, exponential out, quadratic out). -/
inductive EasingTag where
  | quinticInOut
  | bezierEnter
  | expoOut
  | quadOut
deriving DecidableEq, Repr

/-- Which camera vector a tween animates. -/
inductive TweenField where
  | pos
  | focal
deriving DecidableEq, Repr

/-- An active TWEEN.Tween: the animated field, the start value captured at
start(), the end value, duration, easing, and the onComplete effect (the
position tween of a transition sets currentKeyframe on completion and may
run a user callback; the focal tween has no onComplete). -/
structure Tween where
  field : TweenField
  startVal : Vec3
  endVal : Vec3
  duration : ℚ
  easing : EasingTag
  completes : Option CameraKey
  hasCallback : Bool
deriving DecidableEq, Repr

/-- Pose of the externally-owned OrbitControls (object position and
orbit target). -/
structure OrbitState where
  position : Vec3
  target : Vec3
deriving DecidableEq, Repr

/-- State of the Camera controller (Camera.ts fields the core logic reads
and writes). instancePos/instanceLook are the THREE camera transform
written at the end of update(); callbackCount counts invocations of user
onComplete callbacks. -/
structure CameraState where
  position : Vec3
  focalPoint : Vec3
  freeCam : Bool
  orbitControls : Option OrbitState
  currentKeyframe : Option CameraKey
  targetKeyframe : Option CameraKey
  keyframes : KeyframesState
  tweens : List Tween
  callbackCount : Nat
  instancePos : Vec3
  instanceLook : Vec3
deriving DecidableEq, Repr

/-- Controller state after the constructor and setInstance have run:
render pose at the origin, loading viewpoint current, no transition. -/
def cameraInit : CameraState :=
  ⟨⟨0, 0, 0⟩, ⟨0, 0, 0⟩, false, none, some .loading, none,
   keyframesInit, [], 0, ⟨0, 0, 0⟩, ⟨0, 0, 0⟩⟩

/-- Camera.transition: no-op when the current keyframe is already the
requested key; otherwise cancels the in-flight tweens when a transition is
running (TWEEN.removeAll), marks the transition in flight, and starts a
position tween and a focal-point tween from the current render pose to the
target keyframe pose. -/
def transition (key : CameraKey) (duration : ℚ) (easing : Option EasingTag)
    (hasCallback : Bool) (st : CameraState) : CameraState :=
  if st.currentKeyframe = some key then st
  else
    let st := if st.targetKeyframe.isSome then { st with tweens := [] } else st
    let st := { st with currentKeyframe := none, targetKeyframe := some key }
    let kf := st.keyframes.pose key
    let eff := easing.getD .quinticInOut
    let posTween : Tween :=
      ⟨.pos, st.position, kf.position, duration, eff, some key, hasCallback⟩
    let focTween : Tween :=
      ⟨.focal, st.focalPoint, kf.focalPoint, duration, eff, none, false⟩
    { st with tweens := st.tweens ++ [posTween, focTween] }

/-- Effect of one tween reaching the end of its interpolation: the
animated vector is set to the tween end value and the onComplete handler
runs (for a transition position tween: currentKeyframe := key,
targetKeyframe := undefined, user callback invoked when supplied). -/
def completeTween (st : CameraState) (t : Tween) : CameraState :=
  let st :=
    match t.field with
    | .pos => { st with position := t.endVal }
    | .focal => { st with focalPoint := t.endVal }
  match t.completes with
  | some k =>
      { st with currentKeyframe := some k, targetKeyframe := none,
                callbackCount := st.callbackCount + (if t.hasCallback then 1 else 0) }
  | none => st

/-- The interpolation engine run to the end of every active tween
(TWEEN.update past all durations): each active tween completes in start
order and the finished tweens leave the active set. -/
def completeAllTweens (st : CameraState) : CameraState :=
  { st.tweens.foldl completeTween st with tweens := [] }

/-- Semantic events the camera emits on its own event channel. -/
inductive Event where
  | enterMonitor
  | leftMonitor
deriving DecidableEq, Repr

/-- The fields of a DOM event target that handleInput inspects. -/
structure DomTarget where
  tagName : String
  closestButton : Bool
  closestAnchor : Bool
  id : String
deriving DecidableEq, Repr

/-- Safety checks at the top of handleInput: input on an iframe, a button,
a link, or the element marked prevent-click is ignored. -/
def DomTarget.ignored (t : DomTarget) : Bool :=
  t.tagName = "IFRAME" || t.closestButton || t.closestAnchor ||
    t.id = "prevent-click"

/-- Name classification inlined in Camera.handleInput: the lower-cased
name of the nearest hit is matched against the seven substrings the
handler checks. -/
def clickedComputerName (name : String) : Bool :=
  let n := strToLower name
  strIncludes n "computer" || strIncludes n "monitor" ||
    strIncludes n "screen" || strIncludes n "display" ||
    strIncludes n "pc" || strIncludes n "glass" || strIncludes n "hitbox"

/-- Listener installed by setMonitorListeners for enterMonitor: no-op when
already at the monitor, else a 2000ms transition to the monitor with the
custom bezier easing. -/
def onEnterMonitor (st : CameraState) : CameraState :=
  if st.currentKeyframe = some .monitor then st
  else transition .monitor 2000 (some .bezierEnter) false st

/-- Listener installed by setMonitorListeners for leftMonitor: no-op when
already at the desk, else a default 1000ms transition to the desk. -/
def onLeftMonitor (st : CameraState) : CameraState :=
  if st.currentKeyframe = some .desk then st
  else transition .desk 1000 none false st

/-- Camera.handleInput after the raycast: hit is the name of the nearest
intersected object (none when the ray hits nothing). Returns the state
after the triggered listeners and transitions ran, together with the list
of events emitted on the camera's own channel. -/
def handleInput (st : CameraState) (tgt : DomTarget) (hit : Option String) :
    CameraState × List Event :=
  if tgt.ignored then (st, [])
  else
    let clickedComputer :=
      match hit with
      | some name => clickedComputerName name
      | none => false
    if st.currentKeyframe = some .monitor then
      if clickedComputer then (st, [])
      else (onLeftMonitor st, [.leftMonitor])
    else if clickedComputer then (onEnterMonitor st, [.enterMonitor])
    else if st.currentKeyframe = some .idle || st.targetKeyframe = some .idle then
      (transition .desk 1000 none false st, [])
    else if st.currentKeyframe = some .desk || st.targetKeyframe = some .desk then
      (transition .idle 1000 none false st, [])
    else (st, [])

/-- Ambient per-tick context: viewport, pointer, clock and the host sine. -/
structure Ctx where
  width : ℚ
  height : ℚ
  mouseX : ℚ
  mouseY : ℚ
  elapsed : ℚ
  sinFn : ℚ → ℚ

/-- The for-in loop of Camera.update: every keyframe's own update runs
(loading and orbitControlsStart updates are no-ops). -/
def updateKeyframes (ctx : Ctx) (k : KeyframesState) : KeyframesState :=
  { k with
    idle := idleUpdate ctx.sinFn ctx.elapsed k.idle,
    monitor := monitorUpdate ctx.width ctx.height k.monitor,
    desk := deskUpdate ctx.width ctx.height ctx.mouseX ctx.mouseY k.desk }

/-- Camera.update (the per-frame tick): advances the interpolation engine;
when free-cam is engaged and the orbit controller exists, copies the orbit
pose into the render pose and returns early; otherwise runs every
keyframe's update, copies the current keyframe's live pose into the render
pose unless the current keyframe is the monitor, and writes the render
pose into the render camera transform. -/
def cameraUpdate (ctx : Ctx) (st : CameraState) : CameraState :=
  let st := completeAllTweens st
  match st.freeCam, st.orbitControls with
  | true, some oc =>
      { st with position := oc.position, focalPoint := oc.target }
  | _, _ =>
      let kfs := updateKeyframes ctx st.keyframes
      let st := { st with keyframes := kfs }
      let st :=
        match st.currentKeyframe with
        | some k =>
            if k = CameraKey.monitor then st
            else
              { st with position := (kfs.pose k).position,
                        focalPoint := (kfs.pose k).focalPoint }
        | none => st
      { st with instancePos := st.position, instanceLook := st.focalPoint }

/-! JavaScript number semantics for the division-safety analysis: the
reframing arithmetic is exact over the rationals except where IEEE
special values arise, so finite values carry an exact rational and the
special values Infinity and NaN are explicit. -/

/-- A JavaScript number: a finite value, an infinity, or NaN. -/
inductive JSNum where
  | fin : ℚ → JSNum
  | posInf
  | negInf
  | nan
deriving DecidableEq, Repr

/-- IEEE-style division: a finite nonzero value divided by zero gives a
signed infinity, zero by zero gives NaN. -/
def JSNum.div : JSNum → JSNum → JSNum
  | .fin a, .fin b =>
      if b = 0 then
        if a = 0 then .nan else if 0 < a then .posInf else .negInf
      else .fin (a / b)
  | .fin _, .posInf => .fin 0
  | .fin _, .negInf => .fin 0
  | .posInf, .fin b => if 0 ≤ b then .posInf else .negInf
  | .negInf, .fin b => if 0 ≤ b then .negInf else .posInf
  | _, _ => .nan

/-- IEEE-style multiplication: infinity times zero gives NaN. -/
def JSNum.mul : JSNum → JSNum → JSNum
  | .fin a, .fin b => .fin (a * b)
  | .fin a, .posInf => if a = 0 then .nan else if 0 < a then .posInf else .negInf
  | .posInf, .fin b => if b = 0 then .nan else if 0 < b then .posInf else .negInf
  | .fin a, .negInf => if a = 0 then .nan else if 0 < a then .negInf else .posInf
  | .negInf, .fin b => if b = 0 then .nan else if 0 < b then .negInf else .posInf
  | .posInf, .posInf => .posInf
  | .negInf, .negInf => .posInf
  | .posInf, .negInf => .negInf
  | .negInf, .posInf => .negInf
  | _, _ => .nan

/-- IEEE-style addition: opposite infinities give NaN. -/
def JSNum.add : JSNum → JSNum → JSNum
  | .fin a, .fin b => .fin (a + b)
  | .fin _, .posInf => .posInf
  | .posInf, .fin _ => .posInf
  | .fin _, .negInf => .negInf
  | .negInf, .fin _ => .negInf
  | .posInf, .posInf => .posInf
  | .negInf, .negInf => .negInf
  | _, _ => .nan

/-- Number.isFinite. -/
def JSNum.isFinite : JSNum → Bool
  | .fin _ => true
  | _ => false

/-- The monitor reframing distance exactly as the source computes it
(getMobileMonitorPosition and the mobile branch of MonitorKeyframe.update:
aspect = width / height; distance = 3200 + (1 / aspect) * 200) under
JavaScript number semantics; the source applies no clamping to the
viewport dimensions before dividing. -/
def monitorDistanceJS (width height : JSNum) : JSNum :=
  let aspect := width.div height
  (JSNum.fin 3200).add (((JSNum.fin 1).div aspect).mul (JSNum.fin 200))

/-- An idle keyframe constructed at startup and ticked through a sequence
of elapsed-time samples. -/
def idleRun (s : ℚ → ℚ) (ts : List ℚ) : IdleKF :=
  ts.foldl (fun st t => idleUpdate s t st) idleInit

/-! Helper lemmas shared by the claim theorems -/

theorem completeTween_pres (st : CameraState) (t : Tween) :
    (completeTween st t).freeCam = st.freeCam ∧
    (completeTween st t).orbitControls = st.orbitControls ∧
    (completeTween st t).keyframes = st.keyframes := by
  obtain ⟨f, sv, ev, d, ea, c, hc⟩ := t
  cases f <;> cases c <;> exact ⟨rfl, rfl, rfl⟩

theorem foldl_completeTween_freeCam (ts : List Tween) :
    ∀ st : CameraState, (ts.foldl completeTween st).freeCam = st.freeCam := by
  induction ts with
  | nil => intro st; rfl
  | cons t ts ih =>
      intro st
      rw [List.foldl_cons, ih, (completeTween_pres st t).1]

theorem foldl_completeTween_orbit (ts : List Tween) :
    ∀ st : CameraState,
      (ts.foldl completeTween st).orbitControls = st.orbitControls := by
  induction ts with
  | nil => intro st; rfl
  | cons t ts ih =>
      intro st
      rw [List.foldl_cons, ih, (completeTween_pres st t).2.1]

theorem foldl_completeTween_keyframes (ts : List Tween) :
    ∀ st : CameraState, (ts.foldl completeTween st).keyframes = st.keyframes := by
  induction ts with
  | nil => intro st; rfl
  | cons t ts ih =>
      intro st
      rw [List.foldl_cons, ih, (completeTween_pres st t).2.2]

theorem completeAllTweens_freeCam (st : CameraState) :
    (completeAllTweens st).freeCam = st.freeCam :=
  foldl_completeTween_freeCam st.tweens st

theorem completeAllTweens_orbit (st : CameraState) :
    (completeAllTweens st).orbitControls = st.orbitControls :=
  foldl_completeTween_orbit st.tweens st

theorem completeAllTweens_keyframes (st : CameraState) :
    (completeAllTweens st).keyframes = st.keyframes :=
  foldl_completeTween_keyframes st.tweens st

theorem transition_proj (st : CameraState) (K : CameraKey) (d : ℚ)
    (e : Option EasingTag) (cb : Bool)
    (hstart : st.currentKeyframe ≠ some K) :
    (transition K d e cb st).currentKeyframe = none ∧
    (transition K d e cb st).targetKeyframe = some K ∧
    (transition K d e cb st).position = st.position ∧
    (transition K d e cb st).focalPoint = st.focalPoint ∧
    (transition K d e cb st).keyframes = st.keyframes := by
  unfold transition
  rw [if_neg hstart]
  cases h : st.targetKeyframe <;> simp [h]

theorem transition_starts (st : CameraState) (K : CameraKey) (d : ℚ)
    (e : Option EasingTag) (cb : Bool)
    (hstart : st.currentKeyframe ≠ some K)
    (hclean : st.targetKeyframe = none → st.tweens = []) :
    transition K d e cb st =
      { st with
        currentKeyframe := none
        targetKeyframe := some K
        tweens := [⟨.pos, st.position, (st.keyframes.pose K).position, d,
                     e.getD .quinticInOut, some K, cb⟩,
                   ⟨.focal, st.focalPoint, (st.keyframes.pose K).focalPoint, d,
                     e.getD .quinticInOut, none, false⟩] } := by
  unfold transition
  rw [if_neg hstart]
  cases h : st.targetKeyframe with
  | none => simp [h, hclean h]
  | some k => simp [h]

theorem idleUpdate_position_congr (s : ℚ → ℚ) (t : ℚ) (st1 st2 : IdleKF)
    (h : st1.origin = st2.origin) :
    (idleUpdate s t st1).position = (idleUpdate s t st2).position := by
  obtain ⟨p1, f1, o1⟩ := st1
  obtain ⟨p2, f2, o2⟩ := st2
  cases h
  rfl

theorem foldl_idleUpdate_origin (s : ℚ → ℚ) (ts : List ℚ) :
    ∀ st : IdleKF,
      (ts.foldl (fun st t => idleUpdate s t st) st).origin = st.origin := by
  induction ts with
  | nil => intro st; rfl
  | cons t ts ih => intro st; rw [List.foldl_cons, ih]; rfl

theorem idleRun_origin (s : ℚ → ℚ) (ts : List ℚ) :
    (idleRun s ts).origin = idleInit.origin :=
  foldl_idleUpdate_origin s ts idleInit

/-! Claim theorems -/

/-- C3: requesting a transition to the viewpoint that is already current,
with no transition running, is a no-op: the state (render position, focal
point, tween list) is unchanged and no interpolation starts. -/
theorem transition_to_current_is_noop (st : CameraState) (K : CameraKey)
    (d : ℚ) (e : Option EasingTag) (cb : Bool)
    (hcur : st.currentKeyframe = some K) (_htgt : st.targetKeyframe = none) :
    transition K d e cb st = st := by
  unfold transition
  rw [if_pos hcur]

/-- C3 witness: a transition to the loading viewpoint while resting at the
loading viewpoint leaves the initial controller state untouched. -/
theorem transition_to_current_is_noop_w :
    transition .loading 1000 none false cameraInit = cameraInit :=
  transition_to_current_is_noop cameraInit .loading 1000 none false rfl rfl

/-- C5: a transition that actually starts maintains the controller-state
invariant: currentKeyframe is undefined and targetKeyframe is the target
for the duration of the flight; when the interpolation completes,
currentKeyframe becomes the target, targetKeyframe is cleared, and the
user onComplete callback is invoked exactly when one was supplied. -/
theorem transition_flight_invariant (st : CameraState) (K : CameraKey)
    (d : ℚ) (e : Option EasingTag) (cb : Bool)
    (hstart : st.currentKeyframe ≠ some K)
    (hclean : st.targetKeyframe = none → st.tweens = []) :
    (transition K d e cb st).currentKeyframe = none ∧
    (transition K d e cb st).targetKeyframe = some K ∧
    (completeAllTweens (transition K d e cb st)).currentKeyframe = some K ∧
    (completeAllTweens (transition K d e cb st)).targetKeyframe = none ∧
    (completeAllTweens (transition K d e cb st)).callbackCount =
      st.callbackCount + (if cb then 1 else 0) := by
  rw [transition_starts st K d e cb hstart hclean]
  exact ⟨rfl, rfl, rfl, rfl, rfl⟩

/-- C5 witness: starting a transition from the initial state (resting at
loading) to the idle viewpoint with a callback supplied, then completing
it, lands at idle with the callback invoked once. -/
theorem transition_flight_invariant_w :
    (transition .idle 2500 (some .expoOut) true cameraInit).currentKeyframe = none ∧
    (transition .idle 2500 (some .expoOut) true cameraInit).targetKeyframe =
      some .idle ∧
    (completeAllTweens (transition .idle 2500 (some .expoOut) true
      cameraInit)).currentKeyframe = some .idle ∧
    (completeAllTweens (transition .idle 2500 (some .expoOut) true
      cameraInit)).targetKeyframe = none ∧
    (completeAllTweens (transition .idle 2500 (some .expoOut) true
      cameraInit)).callbackCount = cameraInit.callbackCount +
        (if true then 1 else 0) :=
  transition_flight_invariant cameraInit .idle 2500 (some .expoOut) true
    (by decide) (fun _ => rfl)

/-- C10: while a transition toward K is in flight (currentKeyframe
undefined, targetKeyframe = K), calling transition(K) again is not a
no-op: the early-return guard only checks the current keyframe, so the
in-flight tweens are discarded and a fresh position tween and focal tween
start from the current render pose toward K with the newly supplied
duration and easing. -/
theorem transition_inflight_retarget_restarts (st : CameraState)
    (K : CameraKey) (d : ℚ) (e : Option EasingTag) (cb : Bool)
    (hcur : st.currentKeyframe = none) (htgt : st.targetKeyframe = some K) :
    transition K d e cb st =
      { st with
        currentKeyframe := none
        targetKeyframe := some K
        tweens := [⟨.pos, st.position, (st.keyframes.pose K).position, d,
                     e.getD .quinticInOut, some K, cb⟩,
                   ⟨.focal, st.focalPoint, (st.keyframes.pose K).focalPoint, d,
                     e.getD .quinticInOut, none, false⟩] } := by
  refine transition_starts st K d e cb ?_ ?_
  · rw [hcur]; simp
  · intro h; rw [htgt] at h; cases h

/-- C10 witness: re-requesting the monitor viewpoint while already flying
toward it restarts the interpolation with the new 500ms duration. -/
theorem transition_inflight_retarget_restarts_w :
    transition .monitor 500 (some .quadOut) false
        { cameraInit with
          currentKeyframe := none
          targetKeyframe := some .monitor
          tweens := [⟨.pos, ⟨1, 1, 1⟩, ⟨2, 2, 2⟩, 2000, .bezierEnter,
                      some .monitor, false⟩] } =
      { cameraInit with
        currentKeyframe := none
        targetKeyframe := some .monitor
        tweens := [⟨.pos, cameraInit.position,
                     (cameraInit.keyframes.pose .monitor).position, 500,
                     .quadOut, some .monitor, false⟩,
                   ⟨.focal, cameraInit.focalPoint,
                     (cameraInit.keyframes.pose .monitor).focalPoint, 500,
                     .quadOut, none, false⟩] } :=
  transition_inflight_retarget_restarts _ .monitor 500 (some .quadOut) false
    rfl rfl

/-- C7: the mobile-breakpoint predicate holds exactly when the viewport
width is strictly below the 768 pixel breakpoint; at exactly the
breakpoint it is false. -/
theorem isMobile_iff_below_breakpoint (w h : ℚ) :
    (isMobile ⟨w, h⟩ = true ↔ w < MOBILE_BREAKPOINT) ∧
    isMobile ⟨MOBILE_BREAKPOINT, h⟩ = false := by
  constructor
  · simp [isMobile]
  · rfl

/-- C8: at the degenerate viewport of width 0 and height 800 (a mobile
width, so the reframing branch runs) the monitor distance computation
divides by a zero aspect ratio and yields Infinity, not a finite number:
the source clamps nothing before dividing. -/
theorem monitorDistance_zero_width_infinite :
    isMobile ⟨0, 800⟩ = true ∧
    monitorDistanceJS (.fin 0) (.fin 800) = JSNum.posInf ∧
    (monitorDistanceJS (.fin 0) (.fin 800)).isFinite = false := by
  have hdist : monitorDistanceJS (.fin 0) (.fin 800) = JSNum.posInf := by
    norm_num [monitorDistanceJS, JSNum.div, JSNum.mul, JSNum.add]
  exact ⟨by decide, hdist, by rw [hdist]; rfl⟩

/-- C9: the idle viewpoint position is a deterministic pure function of
the elapsed time: after any history of ticks, the position equals the one
computed from the last elapsed-time sample alone (so two identically
constructed controllers fed identical elapsed sequences agree at every
tick), and its z coordinate stays at the authored origin value 20000. -/
theorem idle_position_pure_of_elapsed (s : ℚ → ℚ) (ts : List ℚ) (t : ℚ) :
    (idleRun s (ts ++ [t])).position = (idleUpdate s t idleInit).position ∧
    (idleUpdate s t idleInit).position.z = 20000 := by
  refine ⟨?_, rfl⟩
  have hstep : idleRun s (ts ++ [t]) = idleUpdate s t (idleRun s ts) := by
    unfold idleRun
    rw [List.foldl_append]
    rfl
  rw [hstep]
  exact idleUpdate_position_congr s t _ _ (idleRun_origin s ts)

/-- C1 counterexample: the name bezel is on the exported computer
allow-list (isClickableComputerPart matches the TOUCH_TARGETS entry
bezel), yet handleInput at the desk viewpoint emits no enterMonitor event
for a nearest hit with that name: the handler matches a narrower inline
list that lacks bezel and stand. -/
theorem allowlist_name_without_event :
    isClickableComputerPart "bezel" = true ∧
    ({ cameraInit with currentKeyframe := some .desk } :
        CameraState).currentKeyframe = some CameraKey.desk ∧
    (handleInput { cameraInit with currentKeyframe := some .desk }
        ⟨"DIV", false, false, ""⟩ (some "bezel")).2 = [] := by
  exact ⟨by decide, rfl, by decide⟩

/-- C1 (amended): for every pointer input that passes the target filter,
a nearest hit whose lower-cased name contains one of the seven substrings
the handler itself matches (computer, monitor, screen, display, pc,
glass, hitbox) emits exactly one enterMonitor and zero leftMonitor events
while the current viewpoint is the desk, and a nearest hit matching none
of them emits exactly one leftMonitor and zero enterMonitor events while
the current viewpoint is the monitor. -/
theorem handleInput_event_classification (st : CameraState)
    (tgt : DomTarget) (name : String) (hpass : tgt.ignored = false) :
    (clickedComputerName name = true → st.currentKeyframe = some .desk →
      (handleInput st tgt (some name)).2 = [Event.enterMonitor]) ∧
    (clickedComputerName name = false → st.currentKeyframe = some .monitor →
      (handleInput st tgt (some name)).2 = [Event.leftMonitor]) := by
  unfold handleInput
  rw [hpass]
  constructor
  · intro hc hd
    simp [hd, hc]
  · intro hc hm
    simp [hm, hc]

/-- C1 witness: a hit named computer-screen-hitbox while at the desk
emits exactly the enterMonitor event. -/
theorem handleInput_event_classification_w :
    (handleInput { cameraInit with currentKeyframe := some .desk }
        ⟨"DIV", false, false, ""⟩ (some "computer-screen-hitbox")).2 =
      [Event.enterMonitor] :=
  (handleInput_event_classification
      { cameraInit with currentKeyframe := some .desk }
      ⟨"DIV", false, false, ""⟩ "computer-screen-hitbox" (by decide)).1
    (by decide) rfl

/-- C2: starting transition A and then transition B before A completes
discards A's tweens entirely (the active set holds exactly B's two fresh
tweens, nothing queued), and running the interpolation to completion
lands the render pose on B's target pose with B current. -/
theorem transition_last_request_wins (st s1 s2 : CameraState)
    (A B : CameraKey) (dA dB : ℚ) (eA eB : Option EasingTag) (cbA cbB : Bool)
    (hA : st.currentKeyframe ≠ some A) (_hBA : B ≠ A)
    (hs1 : s1 = transition A dA eA cbA st)
    (hs2 : s2 = transition B dB eB cbB s1) :
    s2.tweens = [⟨.pos, st.position, (st.keyframes.pose B).position, dB,
                   eB.getD .quinticInOut, some B, cbB⟩,
                 ⟨.focal, st.focalPoint, (st.keyframes.pose B).focalPoint, dB,
                   eB.getD .quinticInOut, none, false⟩] ∧
    (completeAllTweens s2).position = (st.keyframes.pose B).position ∧
    (completeAllTweens s2).focalPoint = (st.keyframes.pose B).focalPoint ∧
    (completeAllTweens s2).currentKeyframe = some B ∧
    (completeAllTweens s2).targetKeyframe = none := by
  subst hs2
  subst hs1
  obtain ⟨h1c, h1t, h1p, h1f, h1k⟩ := transition_proj st A dA eA cbA hA
  rw [transition_starts _ B dB eB cbB (by rw [h1c]; simp)
        (by intro h; rw [h1t] at h; cases h)]
  refine ⟨?_, ?_, ?_, ?_, ?_⟩ <;>
    simp only [h1p, h1f, h1k, completeAllTweens, List.foldl, completeTween]

/-- C2 witness: loading, then a transition to idle immediately followed by
a transition to desk ends with the desk viewpoint current. -/
theorem transition_last_request_wins_w :
    (completeAllTweens (transition .desk 1000 none false
        (transition .idle 2500 (some .expoOut) false
          cameraInit))).currentKeyframe = some CameraKey.desk :=
  (transition_last_request_wins cameraInit _ _ .idle .desk 2500 1000
      (some .expoOut) none false false (by decide) (by decide) rfl
      rfl).2.2.2.1

/-- C4: a tick with free-look engaged (and the externally-owned orbit
controller present) copies the orbit pose into the render pose and
returns early: no keyframe update runs, so the orbit controller alone
drives the render position on that tick. -/
theorem freelook_tick_orbit_drives (ctx : Ctx) (st : CameraState)
    (oc : OrbitState) (hfree : st.freeCam = true)
    (horb : st.orbitControls = some oc) :
    (cameraUpdate ctx st).position = oc.position ∧
    (cameraUpdate ctx st).focalPoint = oc.target ∧
    (cameraUpdate ctx st).keyframes = st.keyframes := by
  have h1 : (completeAllTweens st).freeCam = true := by
    rw [completeAllTweens_freeCam, hfree]
  have h2 : (completeAllTweens st).orbitControls = some oc := by
    rw [completeAllTweens_orbit, horb]
  simp only [cameraUpdate]
  rw [h1, h2]
  exact ⟨rfl, rfl, completeAllTweens_keyframes st⟩

/-- C4 witness: with free-look engaged, a tick copies the concrete orbit
pose into the render pose and leaves the keyframes untouched. -/
theorem freelook_tick_orbit_drives_w :
    (cameraUpdate ⟨1024, 768, 0, 0, 0, fun q => q⟩
        { cameraInit with
          freeCam := true
          orbitControls := some ⟨⟨1, 2, 3⟩, ⟨4, 5, 6⟩⟩ }).position =
      (⟨1, 2, 3⟩ : Vec3) ∧
    (cameraUpdate ⟨1024, 768, 0, 0, 0, fun q => q⟩
        { cameraInit with
          freeCam := true
          orbitControls := some ⟨⟨1, 2, 3⟩, ⟨4, 5, 6⟩⟩ }).focalPoint =
      (⟨4, 5, 6⟩ : Vec3) ∧
    (cameraUpdate ⟨1024, 768, 0, 0, 0, fun q => q⟩
        { cameraInit with
          freeCam := true
          orbitControls := some ⟨⟨1, 2, 3⟩, ⟨4, 5, 6⟩⟩ }).keyframes =
      ({ cameraInit with
          freeCam := true
          orbitControls := some ⟨⟨1, 2, 3⟩, ⟨4, 5, 6⟩⟩ } :
        CameraState).keyframes :=
  freelook_tick_orbit_drives ⟨1024, 768, 0, 0, 0, fun q => q⟩
    { cameraInit with
      freeCam := true
      orbitControls := some ⟨⟨1, 2, 3⟩, ⟨4, 5, 6⟩⟩ }
    ⟨⟨1, 2, 3⟩, ⟨4, 5, 6⟩⟩ rfl rfl

/-- C6: the mobile monitor distance equals the base distance 3200 plus a
term inversely proportional to the aspect ratio, and for a fixed height
it is non-decreasing as the width (hence the aspect ratio) shrinks. -/
theorem monitorDistance_inverse_aspect_monotone (w1 w2 h : ℚ)
    (hh : 0 < h) (hw1 : 0 < w1) (hw : w1 ≤ w2) :
    (getMobileMonitorPosition ⟨w1, h⟩).z = 3200 + (1 / (w1 / h)) * 200 ∧
    (getMobileMonitorPosition ⟨w2, h⟩).z ≤
      (getMobileMonitorPosition ⟨w1, h⟩).z := by
  constructor
  · rfl
  · show (3200 : ℚ) + (1 / (w2 / h)) * 200 ≤ 3200 + (1 / (w1 / h)) * 200
    have ha1 : (0 : ℚ) < w1 / h := div_pos hw1 hh
    have ha2 : w1 / h ≤ w2 / h := by gcongr
    have h12 := one_div_le_one_div_of_le ha1 ha2
    nlinarith [h12]

/-- C6 witness: at a fixed height of 800, a 360-wide viewport is framed at
least as far back as a 768-wide one, per the inverse-aspect formula. -/
theorem monitorDistance_inverse_aspect_monotone_w :
    (getMobileMonitorPosition ⟨360, 800⟩).z =
      3200 + (1 / ((360 : ℚ) / 800)) * 200 ∧
    (getMobileMonitorPosition ⟨768, 800⟩).z ≤
      (getMobileMonitorPosition ⟨360, 800⟩).z :=
  monitorDistance_inverse_aspect_monotone 360 768 800 (by norm_num)
    (by norm_num) (by norm_num)

end Portfolio
